import Mathlib

/-!
Verification of the path-confinement and delete-confirmation core of the
filesystem HTTP server (servers/filesystem/app). The Python source is
shallowly embedded: strings model Python `str`, `Int` models UTC timestamps
(seconds), association lists model JSON objects / Python dicts (keys unique,
insertion-ordered), and host-OS behaviour that the code only consults
(path resolution, stat results, file contents) is passed in as explicit
function parameters. Every operation also returns the list of filesystem
I/O events it performs, in order, so that ordering claims about the
PathGuard check can be stated.
-/

namespace Fsrv

/-- Python `str.lower()` restricted to ASCII case mapping, character by
character (the paths and roots the server compares are ASCII; `Char.toLower`
maps exactly the letters A-Z). Models `.lower()` in `dependencies.py`. -/
def lowerStr (s : String) : String :=
  String.mk (s.data.map Char.toLower)

/-- Python `a.startswith(b)`: `b` is a prefix of `a`, code point by code
point. -/
def strStarts (a b : String) : Bool :=
  b.data.isPrefixOf a.data

/-- Auxiliary scan for substring containment: does `needle` occur as a
contiguous run inside `s`? -/
def containsAux (needle : List Char) : List Char → Bool
  | [] => needle.isPrefixOf []
  | c :: cs => needle.isPrefixOf (c :: cs) || containsAux needle cs

/-- Python `needle in hay` on strings: substring containment (the empty
string is contained in everything, as in Python). -/
def strContains (hay needle : String) : Bool :=
  containsAux needle.data hay.data

/-- The structured 403 body raised by `normalize_path`
(`dependencies.py` lines 16-24). -/
structure AccessDeniedDetail where
  error : String
  requested_path : String
  message : String
  allowed_directories : List String
deriving DecidableEq, Repr

/-- Embedding of `normalize_path` (`dependencies.py` lines 10-24).
`resolve` models `pathlib.Path(os.path.expanduser(p)).resolve()` — the
host's home expansion and symlink/relative resolution, a pure input here —
and `allowed` models the `ALLOWED_DIRECTORIES` configuration. The source
loops over the allowed roots and returns the resolved path at the first
case-insensitive prefix hit; otherwise it raises HTTP 403 with the
structured detail. -/
def normalize_path (allowed : List String) (resolve : String → String)
    (requested_path : String) : Except AccessDeniedDetail String :=
  let requested := resolve requested_path
  match allowed.find? (fun a => strStarts (lowerStr requested) (lowerStr a)) with
  | some _ => .ok requested
  | none =>
      .error
        { error := "Access Denied"
          requested_path := requested
          message := "Requested path is outside allowed directories."
          allowed_directories := allowed }

/-- A pending confirmation as held in memory after parsing
(`confirmations.py`): original request path string, recursive flag, and
expiry as an absolute UTC timestamp. -/
structure PendingConfirmation where
  path : String
  recursive : Bool
  expiry : Int
deriving DecidableEq, Repr

/-- One entry of the on-disk JSON snapshot before expiry parsing. The
`expiry` field is the result of `datetime.fromisoformat` on the stored
string: `none` models a missing or unparseable field (the
`ValueError`/`TypeError`/`KeyError` cases skipped at
`confirmations.py` lines 21-26). -/
structure RawEntry where
  path : String
  recursive : Bool
  expiry : Option Int
deriving DecidableEq, Repr

/-- The state of the persisted snapshot file as `load_confirmations`
can encounter it: absent, unreadable (`IOError`), not valid JSON
(`json.JSONDecodeError`), or a parsed JSON object. -/
inductive SnapshotFile where
  | missing
  | unreadable
  | malformed
  | parsed (entries : List (String × RawEntry))
deriving DecidableEq, Repr

/-- The per-entry step of `load_confirmations` (`confirmations.py` lines
20-26): parse the expiry (skip the entry when that fails) and keep the entry
exactly when `details["expiry"] > now`. -/
def loadEntry (now : Int) (e : String × RawEntry) :
    Option (String × PendingConfirmation) :=
  match e.2.expiry with
  | none => none
  | some t => if now < t then some (e.1, ⟨e.2.path, e.2.recursive, t⟩) else none

/-- Embedding of `load_confirmations` (`confirmations.py` lines 11-29):
missing file, unreadable file and malformed JSON all yield the empty
mapping; otherwise each entry whose expiry parses and lies strictly in the
future (`details["expiry"] > now`) is kept, the rest are silently
dropped. -/
def load_confirmations (file : SnapshotFile) (now : Int) :
    List (String × PendingConfirmation) :=
  match file with
  | .missing => []
  | .unreadable => []
  | .malformed => []
  | .parsed entries => entries.filterMap (loadEntry now)

/-- Embedding of `save_confirmations` (`confirmations.py` lines 32-42): the
whole mapping is serialized, each expiry as its ISO string (round-tripping
exactly through `fromisoformat`), overwriting the snapshot. The model
assumes the write succeeds; a swallowed `IOError` would leave the previous
file, which no claim here depends on. -/
def save_confirmations (store : List (String × PendingConfirmation)) :
    SnapshotFile :=
  .parsed (store.map fun e => (e.1, ⟨e.2.path, e.2.recursive, some e.2.expiry⟩))

/-- Python `del d[k]` on the pending-confirmations dict (keys unique). -/
def eraseKey (store : List (String × PendingConfirmation)) (k : String) :
    List (String × PendingConfirmation) :=
  store.filter fun e => e.1 != k

/-- Python `d[k] = v` on the pending-confirmations dict: replace in place
when the key exists, append otherwise. -/
def setKey (store : List (String × PendingConfirmation)) (k : String)
    (v : PendingConfirmation) : List (String × PendingConfirmation) :=
  if store.any fun e => e.1 == k then
    store.map fun e => if e.1 == k then (k, v) else e
  else
    store ++ [(k, v)]

/-- `CONFIRMATION_TTL_SECONDS` (`confirmations.py` line 8). -/
def CONFIRMATION_TTL_SECONDS : Nat := 60

/-- Filesystem I/O events an operation performs, in program order. Stat
calls done by path RESOLUTION itself live inside the abstract `resolve`
parameter and are not events; everything else the code touches on disk
is. -/
inductive Event where
  | statSnapshot
  | readSnapshot
  | writeSnapshot
  | statTarget (p : String)
  | unlinkFile (p : String)
  | removeTree (p : String)
  | removeDir (p : String)
  | readFileEvt (p : String)
  | writeFileEvt (p : String)
  | makeDirEvt (p : String)
  | listDirEvt (p : String)
  | moveEvt (src dst : String)
deriving DecidableEq, Repr

/-- The I/O performed by `load_confirmations`: an existence stat of the
snapshot file always (`confirmations.py` line 13), then an open-and-read
unless the file is missing. -/
def loadEvents : SnapshotFile → List Event
  | .missing => [.statSnapshot]
  | _ => [.statSnapshot, .readSnapshot]

/-- What the host filesystem reports for a resolved path: a regular file, a
directory with the given number of entries, something else (socket, device,
broken symlink target reached by `exists`), or nothing. -/
inductive FsNode where
  | fileNode
  | dirNode (entryCount : Nat)
  | otherNode
deriving DecidableEq, Repr

/-- The `DeletePathRequest` body (`schemas.py`): path, recursive flag,
optional confirmation token. -/
structure DeletePathRequest where
  path : String
  recursive : Bool
  confirmation_token : Option String
deriving DecidableEq, Repr

/-- The two success shapes of `delete_path`: a completed deletion or a
newly issued confirmation. -/
inductive DeleteReply where
  | success (message : String)
  | confirmationRequired (message : String) (confirmation_token : String)
      (expires_at : Int)
deriving DecidableEq, Repr

/-- An endpoint outcome: a typed success value, an `HTTPException` with
status and detail string, or the structured 403 raised by
`normalize_path`. -/
inductive HttpOut (α : Type) where
  | ok (val : α)
  | err (status : Nat) (detail : String)
  | denied (d : AccessDeniedDetail)
deriving DecidableEq, Repr

/-- Embedding of `delete_path` (`path_ops.py` lines 35-110). Parameters:
`fs` is the host's view of the resolved target (`exists`/`is_file`/`is_dir`,
one stat event), `newToken` is the value `secrets.token_hex(3)[:5]` happens
to draw, `file` the snapshot on disk and `now` the current UTC time.
Returns (response, snapshot afterwards, I/O events in order).

Two behaviours of the source are modelled exactly as written, not as the
surrounding docstrings suggest: the parameter-mismatch branch (lines 56-60)
raises WITHOUT deleting the token, and the `raise HTTPException` calls
inside the `try` of the execution section (lines 65-91: the 404 at line 67,
the 400s at lines 81 and 86) are caught by the function's own
`except Exception` at line 90 — `fastapi.HTTPException` subclasses
`Exception` and `str(e)` is "status: detail" — and so surface as a 500
whose detail wraps the inner status and detail. The host's `OSError` text
appended after "Original error:" in the non-empty-directory message, and
`PermissionError` outcomes of the actual unlink/rmtree calls, are not
modelled: deletions themselves are assumed permitted. -/
def delete_path (allowed : List String) (resolve : String → String)
    (fs : String → Option FsNode) (newToken : String) (file : SnapshotFile)
    (now : Int) (data : DeletePathRequest) :
    HttpOut DeleteReply × SnapshotFile × List Event :=
  let evts := loadEvents file
  let pending := load_confirmations file now
  match normalize_path allowed resolve data.path with
  | .error d => (.denied d, file, evts)
  | .ok path =>
    match data.confirmation_token with
    | some tok =>
      match pending.lookup tok with
      | none => (.err 400 "Invalid or expired confirmation token.", file, evts)
      | some cd =>
        if cd.expiry < now then
          (.err 400 "Confirmation token has expired.",
            save_confirmations (eraseKey pending tok), evts ++ [.writeSnapshot])
        else if cd.path ≠ data.path ∨ cd.recursive ≠ data.recursive then
          (.err 400 "Request parameters (path, recursive) do not match the original request for this token.",
            file, evts)
        else
          let file2 := save_confirmations (eraseKey pending tok)
          let evts2 := evts ++ [.writeSnapshot]
          match fs path with
          | none =>
              (.err 500 ("Failed to delete " ++ data.path ++ ": 404: Path not found: " ++ data.path),
                file2, evts2 ++ [.statTarget path])
          | some .fileNode =>
              (.ok (.success ("Successfully deleted file: " ++ data.path)),
                file2, evts2 ++ [.statTarget path, .unlinkFile path])
          | some (.dirNode n) =>
              if data.recursive then
                (.ok (.success ("Successfully deleted directory recursively: " ++ data.path)),
                  file2, evts2 ++ [.statTarget path, .removeTree path])
              else if n = 0 then
                (.ok (.success ("Successfully deleted empty directory: " ++ data.path)),
                  file2, evts2 ++ [.statTarget path, .removeDir path])
              else
                (.err 500 ("Failed to delete " ++ data.path ++ ": 400: Directory not empty. Use 'recursive=True' to delete non-empty directories. Original error: "),
                  file2, evts2 ++ [.statTarget path, .removeDir path])
          | some .otherNode =>
              (.err 500 ("Failed to delete " ++ data.path ++ ": 400: Path is not a file or directory: " ++ data.path),
                file2, evts2 ++ [.statTarget path])
    | none =>
      match fs path with
      | none => (.err 404 ("Path not found: " ++ data.path), file, evts ++ [.statTarget path])
      | some _ =>
          let expiry := now + (CONFIRMATION_TTL_SECONDS : Int)
          (.ok (.confirmationRequired
              ("`Confirm deletion of file: " ++ data.path ++ " with token " ++ newToken ++ "`")
              newToken expiry),
            save_confirmations (setKey pending newToken ⟨data.path, data.recursive, expiry⟩),
            evts ++ [.statTarget path, .writeSnapshot])

/-- `secrets.token_hex` writes each byte as two lowercase hex digits; this
is one digit (`path_ops.py` line 97 via the `secrets`/`binascii`
encoding). -/
def hexDigit (n : Nat) : Char :=
  if n < 10 then Char.ofNat (48 + n) else Char.ofNat (87 + n)

/-- The six hex characters of `secrets.token_hex(3)` for the three drawn
bytes. -/
def token_hex_3 (b0 b1 b2 : Nat) : List Char :=
  [hexDigit (b0 / 16 % 16), hexDigit (b0 % 16),
   hexDigit (b1 / 16 % 16), hexDigit (b1 % 16),
   hexDigit (b2 / 16 % 16), hexDigit (b2 % 16)]

/-- The issued confirmation token: `secrets.token_hex(3)[:5]`
(`path_ops.py` line 97) — the first five of the six hex characters. -/
def issueToken (b0 b1 b2 : Nat) : String :=
  String.mk ((token_hex_3 b0 b1 b2).take 5)

/-- One fnmatch pattern match as `pathlib.PurePath.match` applies it per
component (POSIX flavour, case-sensitive): a star matches any run of
characters, a question mark any single character, any other character
itself. Character-class forms ([seq]) are not modelled; a bracket is
matched literally (no claim here uses a class pattern). -/
def fnmatchList : List Char → List Char → Bool
  | [], s => s.isEmpty
  | '*' :: ps, s => s.tails.any fun t => fnmatchList ps t
  | '?' :: ps, s =>
      match s with
      | [] => false
      | _ :: cs => fnmatchList ps cs
  | pc :: ps, s =>
      match s with
      | [] => false
      | c :: cs => (pc == c) && fnmatchList ps cs

/-- Split a character run at slashes, accumulating the current component
in reverse. -/
def splitSlashAux (cur : List Char) : List Char → List String
  | [] => [String.mk cur.reverse]
  | '/' :: rest => String.mk cur.reverse :: splitSlashAux [] rest
  | c :: rest => splitSlashAux (c :: cur) rest

/-- A path or pattern string cut at slash separators (the POSIX separator
the server's paths use). -/
def splitSlash (s : String) : List String :=
  splitSlashAux [] s.data

/-- `pathlib.Path(root).match(pattern)` (`directories.py` line 81): the
pattern is split into components (empty components are dropped, as
`PurePath` parsing drops them) and, being relative, is matched against
the TRAILING components of the path, one fnmatch per component; an empty
pattern never matches here (the source would raise `ValueError`). Paths
are represented as component lists (a leading empty component standing for
the filesystem root). -/
def pathMatch (pathComps : List String) (pattern : String) : Bool :=
  let pat := (splitSlash pattern).filter fun c => !(c == "")
  if pat.isEmpty then false
  else if pat.length ≤ pathComps.length then
    (List.zip pat.reverse pathComps.reverse).all fun pr =>
      fnmatchList pr.1.data pr.2.data
  else false

/-- A directory subtree as `os.walk` sees it: named files and named
directories with children, in scandir order. -/
inductive FSTree where
  | file (name : String)
  | dir (name : String) (children : List FSTree)

/-- The `files` component of an `os.walk` frame. -/
def childFileNames (cs : List FSTree) : List String :=
  cs.filterMap fun c =>
    match c with
    | .file n => some n
    | .dir _ _ => none

/-- The `dirs` component of an `os.walk` frame. -/
def childDirNames (cs : List FSTree) : List String :=
  cs.filterMap fun c =>
    match c with
    | .dir n _ => some n
    | .file _ => none

/-- The `os.walk` frames contributed by the subdirectories among the
children of the directory at `self` (a path as component list): each
subdirectory's own frame followed by its descendants' frames, in order —
top-down, no pruning, exactly as the unmodified `dirs` list makes `os.walk`
behave in `search_files`. -/
def walkChildren (self : List String) : List FSTree → List (List String × List FSTree)
  | [] => []
  | .file _ :: rest => walkChildren self rest
  | .dir n cs :: rest =>
      ((self ++ [n], cs) :: walkChildren (self ++ [n]) cs) ++ walkChildren self rest

/-- All `os.walk` frames for the directory at `self` with children `cs`:
its own frame first, then the subtree frames. -/
def walkDir (self : List String) (cs : List FSTree) :
    List (List String × List FSTree) :=
  (self, cs) :: walkChildren self cs

/-- `str(result_path)`: components joined by slashes (POSIX rendering; a
leading empty component yields the leading slash). -/
def renderPath (comps : List String) : String :=
  String.intercalate "/" comps

/-- The matches one `os.walk` frame contributes in `search_files`
(`directories.py` lines 78-90): nothing when the frame's own path matches
an exclude pattern; otherwise every name among `files + dirs` containing
the pattern case-insensitively, rendered as a full path, and kept only if
that path string starts — case-SENSITIVELY — with some configured allowed
directory. -/
def frameResults (allowed : List String) (pattern : String)
    (excludePatterns : List String) (frame : List String × List FSTree) :
    List String :=
  if excludePatterns.any fun pat => pathMatch frame.1 pat then []
  else
    ((childFileNames frame.2 ++ childDirNames frame.2).filter fun item =>
        strContains (lowerStr item) (lowerStr pattern)).filterMap fun item =>
      let rp := renderPath (frame.1 ++ [item])
      if allowed.any fun alt => strStarts rp alt then some rp else none

/-- The full result list of `search_files` over the subtree with root
components `baseComps` and children `children` (`directories.py` lines
77-90). -/
def search_files_core (allowed : List String) (baseComps : List String)
    (children : List FSTree) (pattern : String)
    (excludePatterns : List String) : List String :=
  (walkDir baseComps children).flatMap
    (frameResults allowed pattern excludePatterns)

/-- The `SearchFilesRequest` body (`schemas.py`). -/
structure SearchFilesRequest where
  path : String
  pattern : String
  excludePatterns : List String

/-- Embedding of the `search_files` endpoint (`directories.py` lines
72-92): guard the base path, walk its subtree (`treeOf` is the host's
directory tree under the resolved base), collect matches, and answer the
placeholder list when nothing matched. Each walked directory contributes
one listing event. -/
def search_files (allowed : List String) (resolve : String → String)
    (treeOf : String → List FSTree) (data : SearchFilesRequest) :
    HttpOut (List String) × List Event :=
  match normalize_path allowed resolve data.path with
  | .error d => (.denied d, [])
  | .ok path =>
      let frames := walkDir (splitSlash path) (treeOf path)
      let results := frames.flatMap
        (frameResults allowed data.pattern data.excludePatterns)
      (.ok (if results.isEmpty then ["No matches found"] else results),
        frames.map fun fr => .listDirEvt (renderPath fr.1))

/-- Python `s.replace(old, new, 1)` over character runs: replace the FIRST
occurrence of `old` (scanning left to right); an empty `old` inserts `new`
at the front; when `old` does not occur the run is unchanged. -/
def replaceOnceAux (old new : List Char) : List Char → List Char
  | [] => if old.isPrefixOf ([] : List Char) then new else []
  | c :: cs =>
      if old.isPrefixOf (c :: cs) then new ++ (c :: cs).drop old.length
      else c :: replaceOnceAux old new cs

/-- Python `s.replace(old, new, 1)` on strings. -/
def replaceOnce (s old new : String) : String :=
  String.mk (replaceOnceAux old.data new.data s.data)

/-- One (oldText, newText) pair of an `EditFileRequest` (`schemas.py`). -/
structure EditPair where
  oldText : String
  newText : String
deriving DecidableEq, Repr

/-- The `EditFileRequest` body (`schemas.py`). -/
structure EditFileRequest where
  path : String
  edits : List EditPair
  dryRun : Bool
deriving DecidableEq, Repr

/-- The edit loop of `edit_file` (`files.py` lines 68-76): apply each pair
in order as one first-occurrence replacement against the progressively
modified content; the first `oldText` not contained in the content as it
stands aborts with the 400 detail string the source builds (its first 50
characters quoted). -/
def applyEditsLoop : String → List EditPair → Except String String
  | m, [] => .ok m
  | m, e :: rest =>
      if strContains m e.oldText then
        applyEditsLoop (replaceOnce m e.oldText e.newText) rest
      else
        .error ("Edit failed: oldText not found in content: '" ++
          String.mk (e.oldText.data.take 50) ++ "...'")

/-- Python `str.splitlines(keepends=True)` for the common line boundaries:
newline, carriage-return-newline, and lone carriage return (the exotic
Unicode boundaries Python also splits at are not used by this server's
text files). Each returned piece keeps its terminator; a trailing piece
without terminator is kept too. -/
def splitKeepEnds : List Char → List Char → List String
  | acc, [] => if acc.isEmpty then [] else [String.mk acc.reverse]
  | acc, '\r' :: '\n' :: rest => String.mk (acc.reverse ++ ['\r', '\n']) :: splitKeepEnds [] rest
  | acc, '\r' :: rest => String.mk (acc.reverse ++ ['\r']) :: splitKeepEnds [] rest
  | acc, '\n' :: rest => String.mk (acc.reverse ++ ['\n']) :: splitKeepEnds [] rest
  | acc, c :: rest => splitKeepEnds (c :: acc) rest

/-- `original.splitlines(keepends=True)` as `edit_file` feeds it to
`difflib.unified_diff`. -/
def splitLinesKeepEnds (s : String) : List String :=
  splitKeepEnds [] s.data

/-- What a read of the target file can yield before editing: content, or
the exceptions `edit_file` maps at `files.py` lines 61-66. -/
inductive ReadErr where
  | notFoundE
  | permE
  | otherE (msg : String)
deriving DecidableEq, Repr

/-- The two success shapes of `edit_file`: a write confirmation or, on
dry-run, the joined unified diff. -/
inductive EditReply where
  | successMsg (message : String)
  | diffResp (diff : String)
deriving DecidableEq, Repr

/-- Embedding of `edit_file` (`files.py` lines 56-93). `readRes` is the
host's answer to reading the resolved path; `udiff` stands for
`difflib.unified_diff` applied to the two keepends line lists (its output
lines are joined into the response; the diff algorithm itself is an opaque
parameter — the claims concern which contents it is given, not its inner
matching). The loop and the dry-run/write branches sit inside a
`try` whose handlers end in `except Exception` (lines 90-93); because
`fastapi.HTTPException` subclasses `Exception` and prints as
"status: detail", the 400 raised for a missing oldText at line 72 is
caught there and re-surfaces as a 500 whose detail wraps the 400. Host
write failures (the `PermissionError` arm) are assumed not to occur, as no
claim concerns them. -/
def edit_file (allowed : List String) (resolve : String → String)
    (readRes : String → Except ReadErr String)
    (udiff : List String → List String → List String)
    (data : EditFileRequest) : HttpOut EditReply × List Event :=
  match normalize_path allowed resolve data.path with
  | .error d => (.denied d, [])
  | .ok path =>
    match readRes path with
    | .error .notFoundE =>
        (.err 404 ("File not found: " ++ data.path), [.readFileEvt path])
    | .error .permE =>
        (.err 403 ("Permission denied to read file: " ++ data.path), [.readFileEvt path])
    | .error (.otherE m) =>
        (.err 500 ("Failed to read file " ++ data.path ++ " for editing: " ++ m),
          [.readFileEvt path])
    | .ok original =>
      match applyEditsLoop original data.edits with
      | .error detail =>
          (.err 500 ("Failed to write edited file " ++ data.path ++ ": 400: " ++ detail),
            [.readFileEvt path])
      | .ok modified =>
          if data.dryRun then
            (.ok (.diffResp (String.join
                (udiff (splitLinesKeepEnds original) (splitLinesKeepEnds modified)))),
              [.readFileEvt path])
          else
            (.ok (.successMsg ("Successfully edited file " ++ data.path)),
              [.readFileEvt path, .writeFileEvt path])

/-- A host write/mkdir outcome `edit_file`-style handlers map: permission
refusal or another `OSError` with its message. -/
inductive OsErr where
  | permE
  | otherE (msg : String)
deriving DecidableEq, Repr

/-- Embedding of `read_file` (`files.py` lines 24-35): guard, then one
read whose failure modes map to 404, 403 and 500. -/
def read_file (allowed : List String) (resolve : String → String)
    (readRes : String → Except ReadErr String) (path : String) :
    HttpOut String × List Event :=
  match normalize_path allowed resolve path with
  | .error d => (.denied d, [])
  | .ok p =>
    match readRes p with
    | .ok content => (.ok content, [.readFileEvt p])
    | .error .notFoundE => (.err 404 ("File not found: " ++ path), [.readFileEvt p])
    | .error .permE =>
        (.err 403 ("Permission denied for file: " ++ path), [.readFileEvt p])
    | .error (.otherE m) =>
        (.err 500 ("Failed to read file " ++ path ++ ": " ++ m), [.readFileEvt p])

/-- Embedding of `write_file` (`files.py` lines 39-48): guard, then one
overwrite-or-create write. -/
def write_file (allowed : List String) (resolve : String → String)
    (writeRes : String → String → Option OsErr) (path content : String) :
    HttpOut String × List Event :=
  match normalize_path allowed resolve path with
  | .error d => (.denied d, [])
  | .ok p =>
    match writeRes p content with
    | none => (.ok ("Successfully wrote to " ++ path), [.writeFileEvt p])
    | some .permE =>
        (.err 403 ("Permission denied to write to " ++ path), [.writeFileEvt p])
    | some (.otherE m) =>
        (.err 500 ("Failed to write to " ++ path ++ ": " ++ m), [.writeFileEvt p])

/-- Embedding of `create_directory` (`directories.py` lines 25-34): guard,
then a recursive mkdir. -/
def create_directory (allowed : List String) (resolve : String → String)
    (mkdirRes : String → Option OsErr) (path : String) :
    HttpOut String × List Event :=
  match normalize_path allowed resolve path with
  | .error d => (.denied d, [])
  | .ok p =>
    match mkdirRes p with
    | none => (.ok ("Successfully created directory " ++ path), [.makeDirEvt p])
    | some .permE =>
        (.err 403 ("Permission denied to create directory " ++ path), [.makeDirEvt p])
    | some (.otherE m) =>
        (.err 500 ("Failed to create directory " ++ path ++ ": " ++ m), [.makeDirEvt p])

/-- Embedding of `list_directory` (`directories.py` lines 38-48): guard,
an `is_dir` stat (400 when the target is no directory), then one listing;
`entriesOf` gives each child's name and whether it is a directory. -/
def list_directory (allowed : List String) (resolve : String → String)
    (entriesOf : String → Option (List (String × Bool))) (path : String) :
    HttpOut (List (String × String)) × List Event :=
  match normalize_path allowed resolve path with
  | .error d => (.denied d, [])
  | .ok p =>
    match entriesOf p with
    | none => (.err 400 "Provided path is not a directory", [.statTarget p])
    | some entries =>
        (.ok (entries.map fun e => (e.1, if e.2 then "directory" else "file")),
          [.statTarget p, .listDirEvt p])

/-- A node of the `directory_tree` response: name plus type tag, children
nested for directories. -/
inductive TreeNode where
  | fileOut (name : String)
  | dirOut (name : String) (children : List TreeNode)

/-- `build_tree` (`directories.py` lines 56-66) over the tree the host
reports. -/
def buildTreeList : List FSTree → List TreeNode
  | [] => []
  | .file n :: rest => .fileOut n :: buildTreeList rest
  | .dir n cs :: rest => .dirOut n (buildTreeList cs) :: buildTreeList rest

/-- The `iterdir` events `build_tree` performs: one listing of the current
directory, then depth-first into each subdirectory in order. -/
def treeChildEvents (self : String) : List FSTree → List Event
  | [] => []
  | .file _ :: rest => treeChildEvents self rest
  | .dir n cs :: rest =>
      (.listDirEvt (self ++ "/" ++ n) :: treeChildEvents (self ++ "/" ++ n) cs) ++
        treeChildEvents self rest

/-- Embedding of `directory_tree` (`directories.py` lines 52-68): guard,
then the recursive tree build. -/
def directory_tree (allowed : List String) (resolve : String → String)
    (treeOf : String → List FSTree) (path : String) :
    HttpOut (List TreeNode) × List Event :=
  match normalize_path allowed resolve path with
  | .error d => (.denied d, [])
  | .ok p =>
      (.ok (buildTreeList (treeOf p)),
        .listDirEvt p :: treeChildEvents p (treeOf p))

/-- One row of a `search_content` match: file path, 1-based line number,
stripped line text. -/
structure SearchHit where
  file_path : String
  line_number : Nat
  line_content : String
deriving DecidableEq, Repr

/-- One item the glob iterator of `search_content` yields: its path,
whether it is a regular file, and its lines (`none` models a file whose
open or read raises — silently skipped). -/
structure GlobItem where
  path : String
  isFile : Bool
  lines : Option (List String)

/-- The matching rows one globbed item contributes (`directories.py` lines
107-121): non-files and unreadable files contribute nothing; otherwise
every line containing the lowered query, with 1-based number and stripped
text. -/
def globItemHits (queryLower : String) (it : GlobItem) : List SearchHit :=
  if it.isFile then
    match it.lines with
    | none => []
    | some ls =>
        (ls.enumFrom 1).filterMap fun le =>
          if strContains (lowerStr le.2) queryLower then
            some ⟨it.path, le.1, le.2.trim⟩
          else none
  else []

/-- The `search_content` matches field: rows, or the single-element
placeholder when nothing matched. -/
inductive ContentMatches where
  | hits (rows : List SearchHit)
  | placeholder
deriving DecidableEq, Repr

/-- Embedding of `search_content` (`directories.py` lines 96-123): guard,
an `is_dir` check (400 otherwise), then a scan of the globbed files;
`globOf` is the host's glob result under the resolved base (already
respecting the recursive flag and file pattern). -/
def search_content (allowed : List String) (resolve : String → String)
    (globOf : String → Option (List GlobItem)) (path search_query : String) :
    HttpOut ContentMatches × List Event :=
  match normalize_path allowed resolve path with
  | .error d => (.denied d, [])
  | .ok p =>
    match globOf p with
    | none => (.err 400 "Provided path is not a directory", [.statTarget p])
    | some items =>
        let rows := items.flatMap (globItemHits (lowerStr search_query))
        (.ok (if rows.isEmpty then .placeholder else .hits rows),
          .statTarget p :: items.filterMap fun it =>
            if it.isFile then some (.readFileEvt it.path) else none)

/-- Embedding of `move_path` (`path_ops.py` lines 114-135): both paths are
guarded before any I/O; the 404 raised inside the `try` for a missing
source is caught by the function's own `except Exception` and answered as
a 500 wrapping it (same `HTTPException`-subclasses-`Exception` slip as in
`edit_file`); the move itself is assumed permitted. -/
def move_path (allowed : List String) (resolve : String → String)
    (fs : String → Option FsNode) (source_path destination_path : String) :
    HttpOut String × List Event :=
  match normalize_path allowed resolve source_path with
  | .error d => (.denied d, [])
  | .ok src =>
    match normalize_path allowed resolve destination_path with
    | .error d => (.denied d, [])
    | .ok dst =>
      match fs src with
      | none =>
          (.err 500 ("Failed to move '" ++ source_path ++ "' to '" ++
              destination_path ++ "': 404: Source path not found: " ++ source_path),
            [.statTarget src])
      | some _ =>
          (.ok ("Successfully moved '" ++ source_path ++ "' to '" ++
              destination_path ++ "'"),
            [.statTarget src, .moveEvt src dst])

/-- The host stat fields `get_metadata` reads; `birthtime` is `none` on
platforms without `st_birthtime` (the `AttributeError` fallback). Times
stay numeric; the ISO rendering of `datetime.fromtimestamp` is not
modelled. -/
structure StatInfo where
  isFile : Bool
  isDir : Bool
  size : Int
  mtime : Int
  birthtime : Option Int
  ctime : Int

/-- The metadata record `get_metadata` answers. -/
structure MetadataOut where
  path : String
  mtype : String
  size_bytes : Int
  modification_time_utc : Int
  creation_time_utc : Int
  last_metadata_change_time_utc : Int
deriving DecidableEq, Repr

/-- Embedding of `get_metadata` (`path_ops.py` lines 139-168): guard, then
exists/stat; the 404 for a missing path is raised inside the `try` and so
re-surfaces as a 500 wrapping it (`except Exception` at line 167);
creation time falls back to `st_ctime` when `st_birthtime` is absent. -/
def get_metadata (allowed : List String) (resolve : String → String)
    (statOf : String → Option StatInfo) (path : String) :
    HttpOut MetadataOut × List Event :=
  match normalize_path allowed resolve path with
  | .error d => (.denied d, [])
  | .ok p =>
    match statOf p with
    | none =>
        (.err 500 ("Failed to get metadata for " ++ path ++ ": 404: Path not found: " ++ path),
          [.statTarget p])
    | some st =>
        (.ok
          { path := p
            mtype := if st.isFile then "file" else if st.isDir then "directory" else "other"
            size_bytes := st.size
            modification_time_utc := st.mtime
            creation_time_utc := match st.birthtime with | some b => b | none => st.ctime
            last_metadata_change_time_utc := st.ctime },
          [.statTarget p])

/-- Embedding of `list_allowed_directories` (`path_ops.py` lines 172-174):
no path, no guard, no I/O. -/
def list_allowed_directories (allowed : List String) :
    List String × List Event :=
  (allowed, [])

end Fsrv

open Fsrv

/-- Characterization of the per-entry load step: it yields a pending
confirmation exactly for a well-formed entry whose expiry is strictly in the
future. -/
theorem loadEntry_eq_some_iff (now : Int) (tok : String) (pc : PendingConfirmation)
    (e : String × RawEntry) :
    loadEntry now e = some (tok, pc) ↔
      (e = (tok, RawEntry.mk pc.path pc.recursive (some pc.expiry)) ∧ now < pc.expiry) := by
  obtain ⟨tok', rp, rr, re⟩ := e
  obtain ⟨pp, pr, pe⟩ := pc
  cases re with
  | none => simp [loadEntry]
  | some t =>
      unfold loadEntry
      dsimp only
      by_cases hlt : now < t
      · rw [if_pos hlt]
        simp only [Option.some.injEq, Prod.mk.injEq, PendingConfirmation.mk.injEq,
          RawEntry.mk.injEq]
        constructor
        · rintro ⟨h1, h2, h3, h4⟩
          exact ⟨⟨h1, h2, h3, h4⟩, h4 ▸ hlt⟩
        · rintro ⟨⟨h1, h2, h3, h4⟩, _⟩
          exact ⟨h1, h2, h3, h4⟩
      · rw [if_neg hlt]
        simp only [reduceCtorEq, false_iff, Option.some.injEq, Prod.mk.injEq,
          RawEntry.mk.injEq]
        rintro ⟨⟨_, _, _, h4⟩, hlt2⟩
        omega

/-- Loading a snapshot that `save_confirmations` just wrote keeps exactly
the unexpired entries (the serialization round-trips). -/
theorem load_save (st : List (String × PendingConfirmation)) (now : Int) :
    load_confirmations (save_confirmations st) now =
      st.filter fun e => decide (now < e.2.expiry) := by
  show (st.map fun e =>
      (e.1, RawEntry.mk e.2.path e.2.recursive (some e.2.expiry))).filterMap
        (loadEntry now) = _
  rw [List.filterMap_map]
  induction st with
  | nil => rfl
  | cons e rest ih =>
      obtain ⟨tok, pp, pr, pe⟩ := e
      simp only [List.filterMap_cons, List.filter_cons, Function.comp]
      by_cases h : now < pe
      · simp [loadEntry, h, ih]
      · simp [loadEntry, h, ih]

/-- Every token the generator can emit lies in the image of a function of
20 bits (two bytes and the high nibble of the third: the truncated sixth
hex digit is the third byte's low nibble), so at most 16 to the 5th
distinct tokens exist. -/
theorem tokenImage_card_le :
    ((Finset.univ : Finset (Fin 256 × Fin 256 × Fin 256)).image
        (fun t => issueToken t.1.val t.2.1.val t.2.2.val)).card ≤ 1048576 := by
  classical
  set g : Fin 256 × Fin 256 × Fin 16 → String := fun u =>
    String.mk [hexDigit (u.1.val / 16 % 16), hexDigit (u.1.val % 16),
      hexDigit (u.2.1.val / 16 % 16), hexDigit (u.2.1.val % 16),
      hexDigit (u.2.2.val % 16)] with hg
  set proj : Fin 256 × Fin 256 × Fin 256 → Fin 256 × Fin 256 × Fin 16 := fun t =>
    (t.1, t.2.1, ⟨t.2.2.val / 16, by omega⟩) with hproj
  have hfac : (fun t : Fin 256 × Fin 256 × Fin 256 =>
      issueToken t.1.val t.2.1.val t.2.2.val) = g ∘ proj := by
    funext t
    rfl
  rw [hfac, ← Finset.image_image]
  calc ((Finset.univ.image proj).image g).card
      ≤ ((Finset.univ : Finset (Fin 256 × Fin 256 × Fin 16)).image g).card :=
        Finset.card_le_card (Finset.image_subset_image (Finset.subset_univ _))
    _ ≤ (Finset.univ : Finset (Fin 256 × Fin 256 × Fin 16)).card :=
        Finset.card_image_le
    _ = 1048576 := by
        rw [Finset.card_univ, Fintype.card_prod, Fintype.card_prod,
          Fintype.card_fin, Fintype.card_fin]

/-- C3: `normalize_path` accepts a path exactly when the lower-cased
resolved form starts with the lower-cased form of some allowed root; the
accepted value is the resolved path, and a rejection carries the denied
path, the full allowed list, and the fixed human message. -/
theorem normalize_path_accepts_iff_lower_prefixed
    (allowed : List String) (resolve : String → String) (p : String) :
    ((∃ r, normalize_path allowed resolve p = .ok r) ↔
      ∃ a ∈ allowed, strStarts (lowerStr (resolve p)) (lowerStr a) = true)
    ∧ (∀ r, normalize_path allowed resolve p = .ok r → r = resolve p)
    ∧ (∀ d, normalize_path allowed resolve p = .error d →
        d.error = "Access Denied" ∧
        d.requested_path = resolve p ∧
        d.message = "Requested path is outside allowed directories." ∧
        d.allowed_directories = allowed) := by
  cases hfind : allowed.find? (fun a => strStarts (lowerStr (resolve p)) (lowerStr a)) with
  | none =>
      have heq : normalize_path allowed resolve p =
          .error ⟨"Access Denied", resolve p,
            "Requested path is outside allowed directories.", allowed⟩ := by
        simp only [normalize_path, hfind]
      refine ⟨?_, ?_, ?_⟩
      · rw [heq]
        constructor
        · rintro ⟨r, h⟩
          exact absurd h (by simp)
        · rintro ⟨a, ha, hsw⟩
          have := List.find?_eq_none.mp hfind a ha
          simp [hsw] at this
      · intro r h
        rw [heq] at h
        simp at h
      · intro d h
        rw [heq] at h
        simp only [Except.error.injEq] at h
        subst h
        exact ⟨rfl, rfl, rfl, rfl⟩
  | some a =>
      have heq : normalize_path allowed resolve p = .ok (resolve p) := by
        simp only [normalize_path, hfind]
      refine ⟨?_, ?_, ?_⟩
      · constructor
        · intro _
          have hmem := List.mem_of_find?_eq_some hfind
          have hpred := List.find?_some hfind
          exact ⟨a, hmem, hpred⟩
        · intro _
          exact ⟨resolve p, heq⟩
      · intro r h
        rw [heq] at h
        simpa using h.symm
      · intro d h
        rw [heq] at h
        simp at h

/-- Witness for C3 at concrete inputs: the root list with the single entry
slash-data and the identity resolver accepts the path slash-data-x, and the
rejection of slash-etc-x carries the denied path in its detail. -/
theorem normalize_path_accepts_iff_lower_prefixed_witness :
    (∃ r, normalize_path ["/data"] id "/data/x" = .ok r) ∧
    (AccessDeniedDetail.mk "Access Denied" "/etc/x"
        "Requested path is outside allowed directories." ["/data"]).requested_path
      = "/etc/x" := by
  constructor
  · exact (normalize_path_accepts_iff_lower_prefixed ["/data"] id "/data/x").1.mpr
      ⟨"/data", by simp, by decide⟩
  · exact ((normalize_path_accepts_iff_lower_prefixed ["/data"] id "/etc/x").2.2
      (AccessDeniedDetail.mk "Access Denied" "/etc/x"
        "Requested path is outside allowed directories." ["/data"]) (by rfl)).2.1

/-- C9: loading a parsed snapshot returns exactly the entries whose parsed
expiry lies strictly after the current time, and a missing, unreadable or
malformed snapshot loads as the empty mapping. -/
theorem load_confirmations_spec (entries : List (String × RawEntry)) (now : Int) :
    (∀ tok pc, (tok, pc) ∈ load_confirmations (.parsed entries) now ↔
      ((tok, RawEntry.mk pc.path pc.recursive (some pc.expiry)) ∈ entries ∧
        now < pc.expiry))
    ∧ load_confirmations .missing now = []
    ∧ load_confirmations .unreadable now = []
    ∧ load_confirmations .malformed now = [] := by
  refine ⟨?_, rfl, rfl, rfl⟩
  intro tok pc
  unfold load_confirmations
  rw [List.mem_filterMap]
  constructor
  · rintro ⟨e, hmem, hf⟩
    obtain ⟨rfl, hlt⟩ := (loadEntry_eq_some_iff now tok pc e).mp hf
    exact ⟨hmem, hlt⟩
  · rintro ⟨hmem, hlt⟩
    exact ⟨(tok, RawEntry.mk pc.path pc.recursive (some pc.expiry)), hmem,
      (loadEntry_eq_some_iff now tok pc _).mpr ⟨rfl, hlt⟩⟩

/-- C5 counterexample: the whole space of issuable confirmation tokens is
covered by at most 1048576 values, which is no more than an attacker
submitting 17500 requests per second can enumerate within the 60-second
TTL window — the token space is NOT too large to enumerate before the
token expires. -/
theorem token_space_enumerable_within_ttl :
    ((Finset.univ : Finset (Fin 256 × Fin 256 × Fin 256)).image
        (fun t => issueToken t.1.val t.2.1.val t.2.2.val)).card ≤
      CONFIRMATION_TTL_SECONDS * 17500 :=
  le_trans tokenImage_card_le (by norm_num [CONFIRMATION_TTL_SECONDS])

/-- C5 amended: every issued token is exactly 5 characters drawn from the
16 lowercase hex digits, so the space of possible tokens has at most
16 to the 5th, about one million, elements; the token is unpredictable only
in the sense of being drawn by a CSPRNG, not by having a space too large to
enumerate within the TTL. -/
theorem token_space_at_most_16_pow_5 :
    (∀ t : Fin 256 × Fin 256 × Fin 256,
      (issueToken t.1.val t.2.1.val t.2.2.val).length = 5)
    ∧ ((Finset.univ : Finset (Fin 256 × Fin 256 × Fin 256)).image
        (fun t => issueToken t.1.val t.2.1.val t.2.2.val)).card ≤ 16 ^ 5 := by
  constructor
  · intro t
    rfl
  · exact le_trans tokenImage_card_le (by norm_num)

/-- C2 counterexample: a delete request for a path outside the allowed
roots is denied by the guard, yet its I/O trace already contains a stat
and a read of the confirmation snapshot file, performed by
`load_confirmations()` at `path_ops.py` line 42 before `normalize_path`
runs at line 43 — file I/O beyond path-resolution stats does happen
before the PathGuard check on this operation. -/
theorem delete_path_reads_snapshot_before_guard_denial :
    delete_path ["/data"] id (fun _ => none) "abcde" (.parsed []) 0
        ⟨"/etc/x", false, none⟩ =
      (.denied ⟨"Access Denied", "/etc/x",
          "Requested path is outside allowed directories.", ["/data"]⟩,
        .parsed [], [.statSnapshot, .readSnapshot]) := by
  rfl

/-- C1 counterexample: consuming a valid, unexpired token with a mismatched
recursive flag fails with the 400 mismatch error but does NOT remove the
token — the snapshot is returned unchanged (no delete, no save happens on
that branch, `path_ops.py` lines 56-60), and a follow-up request with the
SAME token and the originally stored parameters succeeds. The token
survives a mismatched consumption attempt. -/
theorem delete_path_mismatch_token_reusable :
    (delete_path ["/data"] id (fun q => if q = "/data/f" then some FsNode.fileNode else none)
        "zzzzz" (.parsed [("abcde", ⟨"/data/f", false, some 100⟩)]) 0
        ⟨"/data/f", true, some "abcde"⟩).1 =
      .err 400 "Request parameters (path, recursive) do not match the original request for this token."
    ∧ (delete_path ["/data"] id (fun q => if q = "/data/f" then some FsNode.fileNode else none)
        "zzzzz" (.parsed [("abcde", ⟨"/data/f", false, some 100⟩)]) 0
        ⟨"/data/f", true, some "abcde"⟩).2.1 =
      .parsed [("abcde", ⟨"/data/f", false, some 100⟩)]
    ∧ (delete_path ["/data"] id (fun q => if q = "/data/f" then some FsNode.fileNode else none)
        "zzzzz" (.parsed [("abcde", ⟨"/data/f", false, some 100⟩)]) 1
        ⟨"/data/f", false, some "abcde"⟩).1 =
      .ok (.success "Successfully deleted file: /data/f") :=
  ⟨rfl, rfl, rfl⟩

/-- C1 amended: consuming a valid, unexpired token whose stored path or
recursive flag differs from the request fails with the InvalidInput (400)
mismatch error, and the token is NOT invalidated: the snapshot is left
exactly as it was (the mismatch branch raises before the delete-and-save
step), so the same token can still be consumed afterwards with the
original parameters. -/
theorem delete_path_mismatch_keeps_token (allowed : List String)
    (resolve : String → String) (fs : String → Option FsNode) (ntk : String)
    (file : SnapshotFile) (now : Int) (tok p : String)
    (data : DeletePathRequest) (cd : PendingConfirmation)
    (hg : normalize_path allowed resolve data.path = .ok p)
    (htok : data.confirmation_token = some tok)
    (hlook : (load_confirmations file now).lookup tok = some cd)
    (hexp : ¬ cd.expiry < now)
    (hmis : cd.path ≠ data.path ∨ cd.recursive ≠ data.recursive) :
    delete_path allowed resolve fs ntk file now data =
      (.err 400 "Request parameters (path, recursive) do not match the original request for this token.",
        file, loadEvents file) := by
  obtain ⟨P1, R1, ct⟩ := data
  dsimp only at hg htok hmis ⊢
  subst htok
  simp [delete_path, hg, hlook, hexp, hmis]

/-- Witness for C1 amended at concrete inputs: a stored token for the path
slash-data-f with recursive false, consumed with recursive true, yields the
mismatch error and the unchanged snapshot. -/
theorem delete_path_mismatch_keeps_token_witness :
    delete_path ["/data"] id (fun _ => some FsNode.fileNode) "zzzzz"
        (.parsed [("abcde", ⟨"/data/f", false, some 100⟩)]) 0
        ⟨"/data/f", true, some "abcde"⟩ =
      (.err 400 "Request parameters (path, recursive) do not match the original request for this token.",
        .parsed [("abcde", ⟨"/data/f", false, some 100⟩)],
        [.statSnapshot, .readSnapshot]) :=
  delete_path_mismatch_keeps_token ["/data"] id (fun _ => some FsNode.fileNode)
    "zzzzz" (.parsed [("abcde", ⟨"/data/f", false, some 100⟩)]) 0 "abcde" "/data/f"
    ⟨"/data/f", true, some "abcde"⟩ ⟨"/data/f", false, 100⟩
    rfl rfl rfl (by decide) (Or.inr (by decide))

/-- C4 counterexample: issuing a token and consuming it once succeeds, but
the SECOND request with the same token fails with status 400 and the
detail "Invalid or expired confirmation token." (`path_ops.py` line 48) —
the InvalidInput kind — not with the 404 NotFound status the claim states
(404 is what the endpoint uses for a missing path, line 95). The
intermediate snapshots written by each call are stated explicitly to tie
the three calls into one chain. -/
theorem delete_path_second_reuse_status_400 :
    (delete_path ["/data"] id (fun q => if q = "/data/f" then some FsNode.fileNode else none)
        "abcde" .missing 0 ⟨"/data/f", false, none⟩).1 =
      .ok (.confirmationRequired "`Confirm deletion of file: /data/f with token abcde`"
        "abcde" 60)
    ∧ (delete_path ["/data"] id (fun q => if q = "/data/f" then some FsNode.fileNode else none)
        "abcde" .missing 0 ⟨"/data/f", false, none⟩).2.1 =
      .parsed [("abcde", ⟨"/data/f", false, some 60⟩)]
    ∧ (delete_path ["/data"] id (fun q => if q = "/data/f" then some FsNode.fileNode else none)
        "abcde" (.parsed [("abcde", ⟨"/data/f", false, some 60⟩)]) 1
        ⟨"/data/f", false, some "abcde"⟩).1 =
      .ok (.success "Successfully deleted file: /data/f")
    ∧ (delete_path ["/data"] id (fun q => if q = "/data/f" then some FsNode.fileNode else none)
        "abcde" (.parsed [("abcde", ⟨"/data/f", false, some 60⟩)]) 1
        ⟨"/data/f", false, some "abcde"⟩).2.1 = .parsed []
    ∧ (delete_path ["/data"] id (fun q => if q = "/data/f" then some FsNode.fileNode else none)
        "abcde" (.parsed []) 2 ⟨"/data/f", false, some "abcde"⟩).1 =
      .err 400 "Invalid or expired confirmation token." :=
  ⟨rfl, rfl, rfl, rfl, rfl⟩

/-- C4 amended: a tokenless delete request for an existing path issues a
token bound to the original path string and recursive flag; consuming that
token once with the same parameters (within the TTL, on a deletable node)
succeeds and removes the entry; a second request with the same token then
fails with the InvalidInput error, status 400 and detail
"Invalid or expired confirmation token." — not with a 404 NotFound. -/
theorem delete_path_two_step_single_use (allowed : List String)
    (resolve : String → String) (fs : String → Option FsNode)
    (tok X p : String) (R : Bool) (node : FsNode) (now1 now2 now3 : Int)
    (hg : normalize_path allowed resolve X = .ok p)
    (hfs : fs p = some node)
    (hnode : node = .fileNode ∨ ∃ n, node = .dirNode n ∧ (R = true ∨ n = 0))
    (h2 : now2 < now1 + (CONFIRMATION_TTL_SECONDS : Int)) :
    delete_path allowed resolve fs tok .missing now1 ⟨X, R, none⟩ =
      (.ok (.confirmationRequired
          ("`Confirm deletion of file: " ++ X ++ " with token " ++ tok ++ "`")
          tok (now1 + (CONFIRMATION_TTL_SECONDS : Int))),
        save_confirmations [(tok, ⟨X, R, now1 + (CONFIRMATION_TTL_SECONDS : Int)⟩)],
        [.statSnapshot, .statTarget p, .writeSnapshot])
    ∧ (∃ m, (delete_path allowed resolve fs tok
        (save_confirmations [(tok, ⟨X, R, now1 + (CONFIRMATION_TTL_SECONDS : Int)⟩)])
        now2 ⟨X, R, some tok⟩).1 = .ok (.success m))
    ∧ (delete_path allowed resolve fs tok
        (save_confirmations [(tok, ⟨X, R, now1 + (CONFIRMATION_TTL_SECONDS : Int)⟩)])
        now2 ⟨X, R, some tok⟩).2.1 = save_confirmations []
    ∧ (delete_path allowed resolve fs tok (save_confirmations []) now3
        ⟨X, R, some tok⟩).1 = .err 400 "Invalid or expired confirmation token." := by
  have hload : load_confirmations
      (save_confirmations [(tok, ⟨X, R, now1 + (CONFIRMATION_TTL_SECONDS : Int)⟩)]) now2 =
      [(tok, ⟨X, R, now1 + (CONFIRMATION_TTL_SECONDS : Int)⟩)] := by
    rw [load_save]
    simp [List.filter_cons, h2]
  have hne : ¬ ((now1 + (CONFIRMATION_TTL_SECONDS : Int)) < now2) := by omega
  have hload3 : load_confirmations (save_confirmations []) now3 = [] := by
    rw [load_save]
    rfl
  refine ⟨?_, ?_, ?_, ?_⟩
  · simp [delete_path, hg, hfs, setKey, load_confirmations, loadEvents]
  · obtain rfl | ⟨n, rfl, hrec⟩ := hnode
    · exact ⟨"Successfully deleted file: " ++ X,
        by simp [delete_path, hg, hfs, hload, hne, List.lookup, eraseKey]⟩
    · rcases hrec with hR | hn
      · subst hR
        exact ⟨"Successfully deleted directory recursively: " ++ X,
          by simp [delete_path, hg, hfs, hload, hne, List.lookup, eraseKey]⟩
      · subst hn
        by_cases hR : R = true
        · subst hR
          exact ⟨"Successfully deleted directory recursively: " ++ X,
            by simp [delete_path, hg, hfs, hload, hne, List.lookup, eraseKey]⟩
        · have hRf : R = false := by revert hR; cases R <;> simp
          subst hRf
          exact ⟨"Successfully deleted empty directory: " ++ X,
            by simp [delete_path, hg, hfs, hload, hne, List.lookup, eraseKey]⟩
  · obtain rfl | ⟨n, rfl, hrec⟩ := hnode
    · simp [delete_path, hg, hfs, hload, hne, List.lookup, eraseKey]
    · rcases hrec with hR | hn
      · subst hR
        simp [delete_path, hg, hfs, hload, hne, List.lookup, eraseKey]
      · subst hn
        by_cases hR : R = true
        · subst hR
          simp [delete_path, hg, hfs, hload, hne, List.lookup, eraseKey]
        · have hRf : R = false := by revert hR; cases R <;> simp
          subst hRf
          simp [delete_path, hg, hfs, hload, hne, List.lookup, eraseKey]
  · simp [delete_path, hg, hload3, List.lookup]

/-- Witness for C4 amended at concrete inputs: the second consumption of
the concrete token for slash-data-f is refused with the 400
invalid-or-expired detail. -/
theorem delete_path_two_step_single_use_witness :
    (delete_path ["/data"] id
        (fun q => if q = "/data/f" then some FsNode.fileNode else none) "abcde"
        (save_confirmations []) 2 ⟨"/data/f", false, some "abcde"⟩).1 =
      .err 400 "Invalid or expired confirmation token." :=
  (delete_path_two_step_single_use ["/data"] id
    (fun q => if q = "/data/f" then some FsNode.fileNode else none)
    "abcde" "/data/f" "/data/f" false .fileNode 0 1 2
    rfl rfl (Or.inl rfl) (by decide)).2.2.2

/-- C6 counterexample: with exclude pattern "sub", a match inside the
nested directory slash-root-sub-nested IS returned, although it lies inside
the subtree whose root slash-root-sub matches the exclude pattern (second
conjunct). `os.walk`'s `dirs` list is never pruned (`directories.py` lines
77-85), so only the frame of the matching directory itself is skipped; its
descendants are still visited. -/
theorem search_files_nested_descendant_not_pruned :
    search_files_core ["/root"] ["", "root"]
        [.file "a.txt", .dir "sub" [.dir "nested" [.file "a.log"]]] "a." ["sub"] =
      ["/root/a.txt", "/root/sub/nested/a.log"]
    ∧ pathMatch ["", "root", "sub"] "sub" = true := by
  constructor
  · simp only [search_files_core, walkDir, walkChildren]
    rfl
  · rfl

/-- C6 amended: an exclude pattern suppresses exactly the frames of walked
directories whose own path matches it — their immediate contents yield no
results — but the walk is not pruned, so descendants of an excluded
directory whose own paths do not match can still be returned. On the
spec's two-file example the stated behaviour holds: pattern "a." finds
both files, and excluding "sub" leaves only the file at the top level. -/
theorem search_files_excludes_only_matching_frame :
    (∀ (allowed : List String) (pattern : String) (excl : List String)
      (frame : List String × List FSTree),
      excl.any (fun pat => pathMatch frame.1 pat) = true →
      frameResults allowed pattern excl frame = [])
    ∧ search_files_core ["/root"] ["", "root"]
        [.file "a.txt", .dir "sub" [.file "a.log"]] "a." [] =
      ["/root/a.txt", "/root/sub/a.log"]
    ∧ search_files_core ["/root"] ["", "root"]
        [.file "a.txt", .dir "sub" [.file "a.log"]] "a." ["sub"] =
      ["/root/a.txt"] := by
  refine ⟨?_, ?_, ?_⟩
  · intro allowed pattern excl frame h
    simp [frameResults, h]
  · simp only [search_files_core, walkDir, walkChildren]
    rfl
  · simp only [search_files_core, walkDir, walkChildren]
    rfl

/-- Witness for C6 amended at a concrete frame: the frame of the excluded
directory itself contributes nothing. -/
theorem search_files_excludes_only_matching_frame_witness :
    frameResults ["/root"] "a." ["sub"] (["", "root", "sub"], [FSTree.file "a.log"]) = [] :=
  search_files_excludes_only_matching_frame.1 ["/root"] "a." ["sub"]
    (["", "root", "sub"], [FSTree.file "a.log"]) (by rfl)

/-- C10: every path `search_files` returns starts, under case-sensitive
comparison, with some configured allowed directory (the filter at
`directories.py` line 89 uses `str.startswith`); consequently a tree whose
on-disk casing differs from the configured root is dropped from the
results (second conjunct) even though `normalize_path`, comparing
case-insensitively, accepts the same path as an operation target (third
conjunct). -/
theorem search_results_case_sensitive_allowed_check :
    (∀ (allowed base : List String) (cs : List FSTree) (pattern : String)
      (excl : List String) (r : String),
      r ∈ search_files_core allowed base cs pattern excl →
      ∃ a ∈ allowed, strStarts r a = true)
    ∧ search_files_core ["/Root"] ["", "root"] [.file "a.txt"] "a" [] = []
    ∧ normalize_path ["/Root"] id "/root/a.txt" = .ok "/root/a.txt" := by
  refine ⟨?_, ?_, rfl⟩
  case refine_2 =>
    simp only [search_files_core, walkDir, walkChildren]
    rfl
  intro allowed base cs pattern excl r hr
  unfold search_files_core at hr
  rw [List.mem_flatMap] at hr
  obtain ⟨frame, hfr, hmem⟩ := hr
  unfold frameResults at hmem
  by_cases hex : (excl.any fun pat => pathMatch frame.1 pat) = true
  · rw [if_pos hex] at hmem
    simp at hmem
  · rw [if_neg hex] at hmem
    rw [List.mem_filterMap] at hmem
    obtain ⟨item, _, hsome⟩ := hmem
    dsimp only at hsome
    by_cases hall : (allowed.any fun alt =>
        strStarts (renderPath (frame.1 ++ [item])) alt) = true
    · rw [if_pos hall] at hsome
      obtain rfl := Option.some.inj hsome
      obtain ⟨a, ha, hsa⟩ := List.any_eq_true.mp hall
      exact ⟨a, ha, hsa⟩
    · rw [if_neg hall] at hsome
      simp at hsome

/-- Witness for C10 at concrete inputs: the one returned path of a
matching-case search starts with the configured root. -/
theorem search_results_case_sensitive_allowed_check_witness :
    ∃ a ∈ ["/root"], strStarts "/root/a.txt" a = true :=
  search_results_case_sensitive_allowed_check.1 ["/root"] ["", "root"]
    [FSTree.file "a.txt"] "a" [] "/root/a.txt" (by
      have hres : search_files_core ["/root"] ["", "root"]
          [FSTree.file "a.txt"] "a" [] = ["/root/a.txt"] := by
        simp only [search_files_core, walkDir, walkChildren]
        rfl
      rw [hres]
      exact List.mem_singleton.mpr rfl)

/-- C7, the code bug evaluated: the edit loop itself implements ordered
first-occurrence replacement correctly (first conjunct: the spec's own
example), and a missing oldText does abort before any write (no write
event, third conjunct) — but the response is NOT the InvalidInput 400 the
source explicitly raises at `files.py` line 72: that `HTTPException` is an
`Exception`, so the function's own `except Exception` at line 92 catches
it and answers 500 with the 400 wrapped inside the detail (second
conjunct). -/
theorem edit_file_missing_oldtext_wrapped_as_500 :
    applyEditsLoop "foo baz foo" [⟨"foo", "bar"⟩] = .ok "bar baz foo"
    ∧ (edit_file ["/data"] id (fun _ => .ok "abc") (fun _ _ => [])
        ⟨"/data/f", [⟨"zzz", "y"⟩], false⟩).1 =
      .err 500 "Failed to write edited file /data/f: 400: Edit failed: oldText not found in content: 'zzz...'"
    ∧ (edit_file ["/data"] id (fun _ => .ok "abc") (fun _ _ => [])
        ⟨"/data/f", [⟨"zzz", "y"⟩], false⟩).2 = [.readFileEvt "/data/f"] :=
  ⟨rfl, rfl, rfl⟩

/-- C8: a dry-run edit whose pairs all apply answers the unified line-diff
computed between the original content and the fully modified content
(original and final text split keepends, diff lines joined), and performs
no write: the only I/O event is the read of the file. -/
theorem edit_file_dryrun_returns_diff_without_write (allowed : List String)
    (resolve : String → String) (readRes : String → Except ReadErr String)
    (udiff : List String → List String → List String) (data : EditFileRequest)
    (p original modified : String)
    (hg : normalize_path allowed resolve data.path = .ok p)
    (hr : readRes p = .ok original)
    (he : applyEditsLoop original data.edits = .ok modified)
    (hd : data.dryRun = true) :
    edit_file allowed resolve readRes udiff data =
      (.ok (.diffResp (String.join
          (udiff (splitLinesKeepEnds original) (splitLinesKeepEnds modified)))),
        [.readFileEvt p]) := by
  simp [edit_file, hg, hr, he, hd]

/-- Witness for C8 at concrete inputs, with list concatenation standing in
for the opaque diff parameter: the dry-run answer is the diff of the
original against the fully edited content and the trace holds no write. -/
theorem edit_file_dryrun_returns_diff_without_write_witness :
    edit_file ["/data"] id (fun _ => .ok "foo baz foo")
        (fun a b => a ++ b) ⟨"/data/f", [⟨"foo", "bar"⟩], true⟩ =
      (.ok (.diffResp "foo baz foobar baz foo"), [.readFileEvt "/data/f"]) :=
  edit_file_dryrun_returns_diff_without_write ["/data"] id
    (fun _ => .ok "foo baz foo") (fun a b => a ++ b)
    ⟨"/data/f", [⟨"foo", "bar"⟩], true⟩ "/data/f" "foo baz foo" "bar baz foo"
    rfl rfl rfl rfl

/-- C2 amended: in every operation of the filesystem server EXCEPT
delete_path, a path rejected by `normalize_path` short-circuits the request
before any filesystem I/O: the response is the structured AccessDenied
error and the I/O trace is empty (for move_path this holds both when the
source is denied and when the source passes but the destination is
denied). delete_path alone loads the confirmation snapshot — a stat and,
when the file exists, a read, never a write (final conjunct) — BEFORE
invoking `normalize_path`; on denial its trace is exactly that snapshot
load, the snapshot is unchanged, and the same structured error is
returned. -/
theorem guard_denial_short_circuits_io :
    (∀ (allowed : List String) (resolve : String → String)
      (readRes : String → Except ReadErr String) (path : String)
      (d : AccessDeniedDetail), normalize_path allowed resolve path = .error d →
      read_file allowed resolve readRes path = (.denied d, []))
    ∧ (∀ allowed resolve (writeRes : String → String → Option OsErr) path content d,
      normalize_path allowed resolve path = .error d →
      write_file allowed resolve writeRes path content = (.denied d, []))
    ∧ (∀ allowed resolve (mkdirRes : String → Option OsErr) path d,
      normalize_path allowed resolve path = .error d →
      create_directory allowed resolve mkdirRes path = (.denied d, []))
    ∧ (∀ allowed resolve (entriesOf : String → Option (List (String × Bool))) path d,
      normalize_path allowed resolve path = .error d →
      list_directory allowed resolve entriesOf path = (.denied d, []))
    ∧ (∀ allowed resolve (treeOf : String → List FSTree) path d,
      normalize_path allowed resolve path = .error d →
      directory_tree allowed resolve treeOf path = (.denied d, []))
    ∧ (∀ allowed resolve (treeOf : String → List FSTree)
      (data : SearchFilesRequest) d,
      normalize_path allowed resolve data.path = .error d →
      search_files allowed resolve treeOf data = (.denied d, []))
    ∧ (∀ allowed resolve (globOf : String → Option (List GlobItem)) path query d,
      normalize_path allowed resolve path = .error d →
      search_content allowed resolve globOf path query = (.denied d, []))
    ∧ (∀ allowed resolve (readRes : String → Except ReadErr String)
      (udiff : List String → List String → List String) (data : EditFileRequest) d,
      normalize_path allowed resolve data.path = .error d →
      edit_file allowed resolve readRes udiff data = (.denied d, []))
    ∧ (∀ allowed resolve (statOf : String → Option StatInfo) path d,
      normalize_path allowed resolve path = .error d →
      get_metadata allowed resolve statOf path = (.denied d, []))
    ∧ (∀ allowed resolve (fs : String → Option FsNode) src dst d,
      normalize_path allowed resolve src = .error d →
      move_path allowed resolve fs src dst = (.denied d, []))
    ∧ (∀ allowed resolve (fs : String → Option FsNode) src dst s d,
      normalize_path allowed resolve src = .ok s →
      normalize_path allowed resolve dst = .error d →
      move_path allowed resolve fs src dst = (.denied d, []))
    ∧ (∀ allowed resolve (fs : String → Option FsNode) (ntk : String)
      (file : SnapshotFile) (now : Int) (data : DeletePathRequest) d,
      normalize_path allowed resolve data.path = .error d →
      delete_path allowed resolve fs ntk file now data = (.denied d, file, loadEvents file))
    ∧ (∀ file : SnapshotFile, Event.writeSnapshot ∉ loadEvents file ∧
        ∀ p, Event.writeFileEvt p ∉ loadEvents file) := by
  refine ⟨?_, ?_, ?_, ?_, ?_, ?_, ?_, ?_, ?_, ?_, ?_, ?_, ?_⟩
  · intro allowed resolve readRes path d h
    simp [read_file, h]
  · intro allowed resolve writeRes path content d h
    simp [write_file, h]
  · intro allowed resolve mkdirRes path d h
    simp [create_directory, h]
  · intro allowed resolve entriesOf path d h
    simp [list_directory, h]
  · intro allowed resolve treeOf path d h
    simp [directory_tree, h]
  · intro allowed resolve treeOf data d h
    simp [search_files, h]
  · intro allowed resolve globOf path query d h
    simp [search_content, h]
  · intro allowed resolve readRes udiff data d h
    simp [edit_file, h]
  · intro allowed resolve statOf path d h
    simp [get_metadata, h]
  · intro allowed resolve fs src dst d h
    simp [move_path, h]
  · intro allowed resolve fs src dst s d hs h
    simp [move_path, hs, h]
  · intro allowed resolve fs ntk file now data d h
    simp [delete_path, h]
  · intro file
    cases file <;> simp [loadEvents]

/-- Witness for C2 amended at concrete inputs: a denied read performs no
I/O at all, and a denied delete has performed exactly the snapshot stat
and read. -/
theorem guard_denial_short_circuits_io_witness :
    read_file ["/data"] id (fun _ => Except.ok "secret") "/etc/passwd" =
      (.denied ⟨"Access Denied", "/etc/passwd",
        "Requested path is outside allowed directories.", ["/data"]⟩, [])
    ∧ delete_path ["/data"] id (fun _ => none) "abcde" (.parsed []) 0
        ⟨"/etc/passwd", false, none⟩ =
      (.denied ⟨"Access Denied", "/etc/passwd",
          "Requested path is outside allowed directories.", ["/data"]⟩,
        .parsed [], [.statSnapshot, .readSnapshot]) :=
  ⟨guard_denial_short_circuits_io.1 ["/data"] id (fun _ => Except.ok "secret")
      "/etc/passwd" _ rfl,
    guard_denial_short_circuits_io.2.2.2.2.2.2.2.2.2.2.2.1 ["/data"] id
      (fun _ => none) "abcde" (.parsed []) 0 ⟨"/etc/passwd", false, none⟩ _ rfl⟩
